import Mathlib

/-!
# Search Quality Evaluation — verification of the claimable-item workflow

A shallow embedding of the claimable-item / evaluation-orchestration core of
the Search-Quality-Evaluation repository, together with proofs of its
specified properties.

The embedding follows the TypeScript/JavaScript sources:
* `useLocalStorage.ts` (the `useTheme.ts` bundle): `useLocalStorage`
  (get/set/reset of persisted buckets), `useHistory.addToHistory`,
  `useLocalData.claimItem` / `unclaimItem` / `resetClaims`;
* `sampleData.ts`: `getSampleData`;
* `LandingPage.tsx`: `handleClaimNext`, `handleClaim`, `handleReset`;
* `helpers.ts`: `validateBatchInput`;
* `BatchEvaluation.tsx`: `handleEvaluate`;
* `api.ts`: `evaluateSingle`;
* `EvaluationPage.tsx`: `handleSubmit`;
* the dashboard script in `GCP_DEPLOYMENT_GUIDE.md`: `addToHistory`,
  `updateStatistics`, `updateTabStatistics`, and the batch-record writer.

JavaScript strings are Lean `String`s, numbers are `ℚ` (all numbers the
core manipulates are decimal literals and small integer arithmetic),
`undefined`/absent fields are `Option`, and JSON values are the inductive
`JVal`.  Object identity is not observable in a pure value model, so
`JSON.parse(JSON.stringify x)` — used by the source purely to force a fresh
deep copy — is the structural identity here.
-/

namespace SQE

/-- A JSON value, as produced by `JSON.parse`.  Numbers are rationals
(every numeric literal the core handles is a finite decimal). -/
inductive JVal : Type where
  | null : JVal
  | bool : Bool → JVal
  | num : ℚ → JVal
  | str : String → JVal
  | arr : List JVal → JVal
  | obj : List (String × JVal) → JVal
  deriving Inhabited

/-- `SearchItem` from `types/index.ts`: one evaluable catalog unit.
`id`, `claimed_at` are optional in the source (`id?`, `claimed_at?`);
`claimed?` defaults to false.  Attribute values in the sample catalog are
strings. -/
structure SearchItem : Type where
  id : Option ℚ := none
  query : String
  item_title : String
  item_description : String
  item_category : String
  item_attributes : List (String × String)
  claimed : Bool := false
  claimed_at : Option String := none
  deriving Repr, DecidableEq, Inhabited

/-- `getSampleData` from `sampleData.ts`: the canonical three-item sample
catalog.  All items are seeded unclaimed, with no `claimed_at` field. -/
def getSampleData : List SearchItem :=
  [ { query := "red running shoes"
    , item_title := "Nike Air Zoom Pegasus 39"
    , item_description := "Experience ultimate comfort and performance with these vibrant red running shoes. Featuring advanced Zoom Air technology for responsive cushioning and durable traction."
    , item_category := "Footwear"
    , item_attributes := [("color", "red"), ("size", "9"), ("brand", "Nike"), ("price", "$129.99")]
    , claimed := false }
  , { query := "blue summer dress"
    , item_title := "Floral Maxi Dress"
    , item_description := "Elegant floor-length summer dress with soft cotton fabric and blue floral pattern."
    , item_category := "Clothing"
    , item_attributes := [("color", "blue"), ("material", "cotton"), ("length", "maxi"), ("occasion", "casual")]
    , claimed := false }
  , { query := "smartwatch with GPS"
    , item_title := "Apple Watch Series 9"
    , item_description := "Advanced smartwatch with GPS, health tracking, and bright Retina display."
    , item_category := "Wearables"
    , item_attributes := [("color", "midnight"), ("size", "45mm"), ("brand", "Apple"), ("price", "$399.99")]
    , claimed := false } ]

/-- `claimItem` from `useLocalData` (`useLocalStorage.ts`): marks the item
whose `id` equals `itemId` as claimed, stamping `claimed_at` with the
current ISO time. -/
def claimItem (itemId : ℚ) (now : String) (items : List SearchItem) : List SearchItem :=
  items.map fun item =>
    if item.id = some itemId then
      { item with claimed := true, claimed_at := some now }
    else item

/-- `unclaimItem` from `useLocalData`: clears the claim and the timestamp
of the item whose `id` equals `itemId`. -/
def unclaimItem (itemId : ℚ) (items : List SearchItem) : List SearchItem :=
  items.map fun item =>
    if item.id = some itemId then
      { item with claimed := false, claimed_at := none }
    else item

/-- `resetClaims` from `useLocalData`: unclaims every claimed item
(clearing both flag and timestamp). -/
def resetClaims (items : List SearchItem) : List SearchItem :=
  items.map fun item =>
    if item.claimed then
      { item with claimed := false, claimed_at := none }
    else item

/-- The title-based claim update of `LandingPage.handleClaim`
(`items.map (i) => i.item_title === item.item_title ? { ...i, claimed:
true, claimed_at: new Date().toISOString() } : i`). -/
def claimByTitle (title : String) (now : String) (items : List SearchItem) : List SearchItem :=
  items.map fun i =>
    if i.item_title = title then
      { i with claimed := true, claimed_at := some now }
    else i

/-- One catalog-mutating operation of the workflow: the id-based claim and
unclaim of `useLocalData`, the title-based claim of `LandingPage`, the
claim-clearing `resetClaims`, and the full catalog reset (which replaces
the catalog with a fresh copy of `getSampleData`, as `resetValue` does for
the `searchItems` bucket). -/
inductive CatalogOp : Type where
  | claim (itemId : ℚ) (now : String)
  | unclaim (itemId : ℚ)
  | claimTitle (title : String) (now : String)
  | resetCl
  | resetAll
  deriving Repr, DecidableEq

/-- Interpretation of one catalog operation, straight from the source. -/
def applyOp (items : List SearchItem) : CatalogOp → List SearchItem
  | .claim itemId now => claimItem itemId now items
  | .unclaim itemId => unclaimItem itemId items
  | .claimTitle title now => claimByTitle title now items
  | .resetCl => resetClaims items
  | .resetAll => getSampleData

/-- Catalog state after a sequence of operations, starting from the seeded
sample catalog. -/
def runOps (ops : List CatalogOp) : List SearchItem :=
  ops.foldl applyOp getSampleData

/-- The claim invariant of one item: the claimed flag is set iff the
claimed-at timestamp is present (stated as equality of the two booleans). -/
def claimInv (item : SearchItem) : Prop :=
  item.claimed = item.claimed_at.isSome

instance (item : SearchItem) : Decidable (claimInv item) := by
  unfold claimInv; infer_instance

lemma claimInv_claimItem {items : List SearchItem} (h : ∀ i ∈ items, claimInv i)
    (itemId : ℚ) (now : String) : ∀ i ∈ claimItem itemId now items, claimInv i := by
  intro i hi
  rw [claimItem, List.mem_map] at hi
  obtain ⟨j, hj, rfl⟩ := hi
  by_cases hid : j.id = some itemId
  · simp [hid, claimInv]
  · simpa [hid, claimInv] using h j hj

lemma claimInv_unclaimItem {items : List SearchItem} (h : ∀ i ∈ items, claimInv i)
    (itemId : ℚ) : ∀ i ∈ unclaimItem itemId items, claimInv i := by
  intro i hi
  rw [unclaimItem, List.mem_map] at hi
  obtain ⟨j, hj, rfl⟩ := hi
  by_cases hid : j.id = some itemId
  · simp [hid, claimInv]
  · simpa [hid, claimInv] using h j hj

lemma claimInv_claimByTitle {items : List SearchItem} (h : ∀ i ∈ items, claimInv i)
    (title now : String) : ∀ i ∈ claimByTitle title now items, claimInv i := by
  intro i hi
  rw [claimByTitle, List.mem_map] at hi
  obtain ⟨j, hj, rfl⟩ := hi
  by_cases ht : j.item_title = title
  · simp [ht, claimInv]
  · simpa [ht, claimInv] using h j hj

lemma claimInv_resetClaims {items : List SearchItem} (h : ∀ i ∈ items, claimInv i) :
    ∀ i ∈ resetClaims items, claimInv i := by
  intro i hi
  rw [resetClaims, List.mem_map] at hi
  obtain ⟨j, hj, rfl⟩ := hi
  by_cases hc : j.claimed = true
  · simp [hc, claimInv]
  · simpa [hc, claimInv] using h j hj

lemma claimInv_sample : ∀ i ∈ getSampleData, claimInv i := by decide

lemma claimInv_applyOp {items : List SearchItem} (h : ∀ i ∈ items, claimInv i)
    (op : CatalogOp) : ∀ i ∈ applyOp items op, claimInv i := by
  cases op with
  | claim itemId now => exact claimInv_claimItem h itemId now
  | unclaim itemId => exact claimInv_unclaimItem h itemId
  | claimTitle title now => exact claimInv_claimByTitle h title now
  | resetCl => exact claimInv_resetClaims h
  | resetAll => exact claimInv_sample

lemma claimInv_foldl :
    ∀ (ops : List CatalogOp) (start : List SearchItem),
      (∀ i ∈ start, claimInv i) → ∀ i ∈ ops.foldl applyOp start, claimInv i := by
  intro ops
  induction ops with
  | nil => intro start h; simpa using h
  | cons op rest ih =>
    intro start h
    exact ih (applyOp start op) (claimInv_applyOp h op)

/-- C1: after every sequence of claim, unclaim, and reset operations
starting from the freshly seeded sample catalog, every item's claimed flag
is true iff its claimed-at timestamp is set; in particular the seeded
sample items are unclaimed with no timestamp. -/
theorem claim_invariant_holds :
    (∀ ops : List CatalogOp, ∀ i ∈ runOps ops, claimInv i) ∧
    (∀ i ∈ getSampleData, i.claimed = false ∧ i.claimed_at = none) := by
  refine ⟨fun ops => ?_, by decide⟩
  exact claimInv_foldl ops getSampleData claimInv_sample


/-- `source` tag of a history entry (`types/index.ts`). -/
inductive HistorySource : Type where
  | claimed_item
  | manual_entry
  | batch
  deriving Repr, DecidableEq, Inhabited

/-- `HistoryItem` from `types/index.ts` (the enhanced shape written by
`EvaluationPage.handleSubmit`): a permanent record of one completed single
evaluation.  `id` is the `Date.now()` value assigned by `addToHistory`. -/
structure HistoryItem : Type where
  id : ℚ
  timestamp : String
  query : String
  itemTitle : String
  itemDescription : String
  itemCategory : String
  itemAttributes : List (String × String)
  score : ℚ
  confidence : ℚ
  reasonCode : String
  aiReasoning : String
  source : Option HistorySource := none
  itemId : Option ℚ := none
  deriving Repr, DecidableEq, Inhabited

/-- The `Omit<HistoryItem, 'id'>` argument of `addToHistory`: an entry not
yet stamped with its id. -/
structure HistoryEntry : Type where
  timestamp : String
  query : String
  itemTitle : String
  itemDescription : String
  itemCategory : String
  itemAttributes : List (String × String)
  score : ℚ
  confidence : ℚ
  reasonCode : String
  aiReasoning : String
  source : Option HistorySource := none
  itemId : Option ℚ := none
  deriving Repr, DecidableEq, Inhabited

/-- The `{ ...item, id: Date.now() }` spread in `addToHistory`. -/
def HistoryEntry.withId (e : HistoryEntry) (now : ℚ) : HistoryItem :=
  { id := now
  , timestamp := e.timestamp
  , query := e.query
  , itemTitle := e.itemTitle
  , itemDescription := e.itemDescription
  , itemCategory := e.itemCategory
  , itemAttributes := e.itemAttributes
  , score := e.score
  , confidence := e.confidence
  , reasonCode := e.reasonCode
  , aiReasoning := e.aiReasoning
  , source := e.source
  , itemId := e.itemId }

/-- `addToHistory` from `useHistory` (`useLocalStorage.ts`):
`setHistory(prev => [{ ...item, id: Date.now() }, ...prev].slice(0, 50))`. -/
def addToHistory (item : HistoryEntry) (now : ℚ) (prev : List HistoryItem) :
    List HistoryItem :=
  ((item.withId now) :: prev).take 50

/-- Repeated insertion through `addToHistory`, starting from an empty
history; each pair carries the entry and its `Date.now()` stamp. -/
def insertAll (ops : List (HistoryEntry × ℚ)) : List HistoryItem :=
  ops.foldl (fun h p => addToHistory p.1 p.2 h) []

lemma take_cons_take (x : HistoryItem) (l : List HistoryItem) :
    ((x :: l.take 50).take 50) = (x :: l).take 50 := by
  show x :: ((l.take 50).take 49) = x :: l.take 49
  rw [List.take_take]
  norm_num

lemma take_append_take (X Y : List HistoryItem) :
    (X ++ Y.take 50).take 50 = (X ++ Y).take 50 := by
  rw [List.take_append_eq_append_take, List.take_append_eq_append_take,
    List.take_take]
  have hmin : (50 - X.length) ⊓ 50 = 50 - X.length :=
    Nat.min_eq_left (Nat.sub_le 50 X.length)
  rw [hmin]

lemma insertAll_foldl (ops : List (HistoryEntry × ℚ)) :
    ∀ acc : List HistoryItem, acc.length ≤ 50 →
      ops.foldl (fun h p => addToHistory p.1 p.2 h) acc =
        ((ops.map fun p => p.1.withId p.2).reverse ++ acc).take 50 := by
  induction ops with
  | nil =>
    intro acc hacc
    simp [List.take_of_length_le hacc]
  | cons p rest ih =>
    intro acc hacc
    have hlen : (addToHistory p.1 p.2 acc).length ≤ 50 := by
      rw [addToHistory, List.length_take]
      exact Nat.min_le_left 50 _
    rw [List.foldl_cons, ih (addToHistory p.1 p.2 acc) hlen, addToHistory,
      List.map_cons, List.reverse_cons, List.append_assoc]
    exact take_append_take _ _

/-- Closed form for a fresh history built by repeated `addToHistory`. -/
lemma insertAll_eq (ops : List (HistoryEntry × ℚ)) :
    insertAll ops = ((ops.map fun p => p.1.withId p.2).reverse).take 50 := by
  rw [insertAll, insertAll_foldl ops [] (by simp)]
  simp

/-- C2: `addToHistory` always places the new entry at the front, the
history never exceeds 50 entries, and inserting 51 entries into an empty
history leaves exactly 50 — the oldest (the first-inserted, i.e. back)
entry is evicted and the remaining 50 are kept newest-first in order. -/
theorem history_bound_fifo :
    (∀ (e : HistoryEntry) (now : ℚ) (prev : List HistoryItem),
      (addToHistory e now prev).head? = some (e.withId now) ∧
      (addToHistory e now prev).length ≤ 50) ∧
    (∀ ops : List (HistoryEntry × ℚ), ops.length = 51 →
      insertAll ops = ((ops.drop 1).map fun p => p.1.withId p.2).reverse ∧
      (insertAll ops).length = 50) := by
  constructor
  · intro e now prev
    constructor
    · rfl
    · rw [addToHistory, List.length_take]
      exact Nat.min_le_left 50 _
  · intro ops hlen
    have hmaplen : (ops.map fun p => p.1.withId p.2).length = 51 := by
      rw [List.length_map]; exact hlen
    have hmain : insertAll ops = ((ops.drop 1).map fun p => p.1.withId p.2).reverse := by
      rw [insertAll_eq, List.take_reverse, hmaplen]
      show ((ops.map fun p => p.1.withId p.2).drop 1).reverse = _
      rw [← List.map_drop]
    refine ⟨hmain, ?_⟩
    rw [hmain]
    simp
    omega

/-- Witness for C2 at a concrete input: 51 copies of one entry inserted in
sequence leave exactly the last 50. -/
theorem history_bound_fifo_witness :
    (List.replicate 51 ((default : HistoryEntry), (0 : ℚ))).length = 51 ∧
    insertAll (List.replicate 51 ((default : HistoryEntry), (0 : ℚ))) =
      (((List.replicate 51 ((default : HistoryEntry), (0 : ℚ))).drop 1).map
        fun p => p.1.withId p.2).reverse := by
  constructor
  · simp
  · exact (history_bound_fifo.2 (List.replicate 51 (default, 0)) (by simp)).1

/-- `item[field]` on a parsed non-`null` JSON value: objects yield the
value bound to the key, every other non-`null` primitive yields
`undefined` (`none`).  On `null` the JS access *throws* a TypeError; that
case is modelled separately by `firstBadFieldT`, and callers only consult
`getField` on non-`null` values. -/
def JVal.getField (v : JVal) (f : String) : Option JVal :=
  match v with
  | .obj fs => (fs.find? fun p => p.1 == f).map (fun p => p.2)
  | _ => none

/-- `true` exactly on the JSON `null` value. -/
def JVal.isNull : JVal → Bool
  | .null => true
  | _ => false

/-- The per-field check of `validateBatchInput`:
`!item[field] || typeof item[field] !== 'string'` rejects everything but a
nonempty string (the empty string is falsy). -/
def fieldOk : Option JVal → Bool
  | some (.str s) => !(s == "")
  | _ => false

/-- The required string fields of a batch item (`helpers.ts`). -/
def requiredFields : List String :=
  ["query", "item_title", "item_description", "item_category"]

/-- The first required field a non-`null` element is missing (in field
order), if any. -/
def firstBadField (item : JVal) : Option String :=
  requiredFields.find? fun f => !(fieldOk (item.getField f))

/-- One element's scan in the validation loop.  `item[field]` throws a
TypeError when the element is `null` (`.error ()`, to be caught by the
surrounding try/catch); on every other value the accesses return and the
first missing field, if any, is reported. -/
def firstBadFieldT (item : JVal) : Except Unit (Option String) :=
  if item.isNull then .error () else .ok (firstBadField item)

/-- The `validateBatchInput` error text
`` `Item ${i + 1}: Missing or invalid field "${field}"` `` for the item at
0-based index `i`. -/
def itemError (i : Nat) (f : String) : String :=
  "Item " ++ toString (i + 1) ++ ": Missing or invalid field \"" ++ f ++ "\""

/-- The indexed loop of `validateBatchInput`: scan items from index `k`,
returning the first per-item error; a thrown TypeError propagates. -/
def validateItemsFromT : Nat → List JVal → Except Unit (Option String)
  | _, [] => .ok none
  | i, item :: rest =>
    match firstBadFieldT item with
    | .error () => .error ()
    | .ok (some f) => .ok (some (itemError i f))
    | .ok none => validateItemsFromT (i + 1) rest

/-- `validateBatchInput` from `helpers.ts`, over the parse of the raw
input: `inputEmpty` models `!input.trim()`, and `parsed = none` a string
`JSON.parse` rejects.  A TypeError thrown inside the loop (a `null`
element) is caught by the try/catch and becomes the generic
`'Failed to validate input structure'` error.  Returns `none` when valid,
`some error` otherwise. -/
def validateBatchInput (inputEmpty : Bool) (parsed : Option JVal) : Option String :=
  if inputEmpty then some "Input cannot be empty"
  else
    match parsed with
    | none => some "Invalid JSON format"
    | some (.arr xs) =>
        if xs.isEmpty then some "Array cannot be empty"
        else
          match validateItemsFromT 0 xs with
          | .error () => some "Failed to validate input structure"
          | .ok r => r
    | some _ => some "Input must be an array of items"

/-- Observable outcome of one `handleEvaluate` run: how many times the
oracle endpoint (`evaluateBatch`) was invoked, the error toast if any, and
the results that were set. -/
structure BatchOutcome : Type where
  oracleCalls : Nat
  toast : Option String
  results : List JVal

/-- `handleEvaluate` from `BatchEvaluation.tsx`: validate first, return on
error before any network call; otherwise dispatch the first 50 items to
`evaluateBatch` once. -/
def handleEvaluate (inputEmpty : Bool) (parsed : Option JVal)
    (oracle : List JVal → List JVal) : BatchOutcome :=
  match validateBatchInput inputEmpty parsed with
  | some err => ⟨0, some err, []⟩
  | none =>
    match parsed with
    | some (.arr xs) => ⟨1, none, oracle (xs.take 50)⟩
    | _ => ⟨0, some "Batch evaluation failed. Please check your input.", []⟩

lemma validateItemsFromT_found :
    ∀ (xs : List JVal) (k i : Nat) (item : JVal) (f : String),
      xs.get? i = some item →
      item.isNull = false →
      firstBadField item = some f →
      (∀ j, j < i → ∀ it, xs.get? j = some it →
        it.isNull = false ∧ firstBadField it = none) →
      validateItemsFromT k xs = .ok (some (itemError (k + i) f)) := by
  intro xs
  induction xs with
  | nil =>
    intro k i item f hget
    simp at hget
  | cons x rest ih =>
    intro k i item f hget hnn hbad hgood
    cases i with
    | zero =>
      obtain rfl : x = item := by
        have : some x = some item := hget
        injection this
      simp only [validateItemsFromT, firstBadFieldT, hnn, hbad, Bool.false_eq_true,
        if_false, Nat.add_zero]
    | succ n =>
      have hx := hgood 0 (Nat.succ_pos n) x rfl
      have hget' : rest.get? n = some item := hget
      have hgood' : ∀ j, j < n → ∀ it, rest.get? j = some it →
          it.isNull = false ∧ firstBadField it = none :=
        fun j hj it hit => hgood (j + 1) (by omega) it hit
      simp only [validateItemsFromT, firstBadFieldT, hx.1, hx.2, Bool.false_eq_true,
        if_false]
      rw [ih (k + 1) n item f hget' hnn hbad hgood']
      have : k + 1 + n = k + (n + 1) := by omega
      rw [this]

lemma validateItemsFromT_null :
    ∀ (xs : List JVal) (k i : Nat) (item : JVal),
      xs.get? i = some item →
      item.isNull = true →
      (∀ j, j < i → ∀ it, xs.get? j = some it →
        it.isNull = false ∧ firstBadField it = none) →
      validateItemsFromT k xs = .error () := by
  intro xs
  induction xs with
  | nil =>
    intro k i item hget
    simp at hget
  | cons x rest ih =>
    intro k i item hget hnull hgood
    cases i with
    | zero =>
      obtain rfl : x = item := by
        have : some x = some item := hget
        injection this
      simp only [validateItemsFromT, firstBadFieldT, hnull, if_true]
    | succ n =>
      have hx := hgood 0 (Nat.succ_pos n) x rfl
      have hget' : rest.get? n = some item := hget
      have hgood' : ∀ j, j < n → ∀ it, rest.get? j = some it →
          it.isNull = false ∧ firstBadField it = none :=
        fun j hj it hit => hgood (j + 1) (by omega) it hit
      simp only [validateItemsFromT, firstBadFieldT, hx.1, hx.2, Bool.false_eq_true,
        if_false]
      exact ih (k + 1) n item hget' hnull hgood'

/-- C3 (amended): when the first offending element of the batch is a
non-`null` item missing a required string field `f` at index `i`, the
batch is rejected with the error naming that item (1-based `Item (i+1)`)
and field; when the first offending element is a JSON `null`, the field
access throws and the try/catch yields the generic
`'Failed to validate input structure'` error instead; in both cases — and
under every other validation failure — `handleEvaluate` returns before
dispatch, so the oracle receives zero calls and no results are
produced. -/
theorem batch_fail_fast_amended :
    (∀ (xs : List JVal) (i : Nat) (item : JVal) (f : String)
        (oracle : List JVal → List JVal),
      xs.get? i = some item →
      item.isNull = false →
      firstBadField item = some f →
      (∀ j, j < i → ∀ it, xs.get? j = some it →
        it.isNull = false ∧ firstBadField it = none) →
      validateBatchInput false (some (.arr xs)) = some (itemError i f) ∧
      (handleEvaluate false (some (.arr xs)) oracle).oracleCalls = 0 ∧
      (handleEvaluate false (some (.arr xs)) oracle).toast = some (itemError i f) ∧
      (handleEvaluate false (some (.arr xs)) oracle).results = []) ∧
    (∀ (xs : List JVal) (i : Nat) (item : JVal)
        (oracle : List JVal → List JVal),
      xs.get? i = some item →
      item.isNull = true →
      (∀ j, j < i → ∀ it, xs.get? j = some it →
        it.isNull = false ∧ firstBadField it = none) →
      validateBatchInput false (some (.arr xs)) =
        some "Failed to validate input structure" ∧
      (handleEvaluate false (some (.arr xs)) oracle).oracleCalls = 0 ∧
      (handleEvaluate false (some (.arr xs)) oracle).results = []) ∧
    (∀ (inputEmpty : Bool) (parsed : Option JVal) (err : String)
        (oracle : List JVal → List JVal),
      validateBatchInput inputEmpty parsed = some err →
      (handleEvaluate inputEmpty parsed oracle).oracleCalls = 0 ∧
      (handleEvaluate inputEmpty parsed oracle).results = []) := by
  refine ⟨?_, ?_, ?_⟩
  · intro xs i item f oracle hget hnn hbad hgood
    have hne : xs.isEmpty = false := by
      cases xs with
      | nil => simp at hget
      | cons a l => rfl
    have hval : validateBatchInput false (some (.arr xs)) = some (itemError i f) := by
      rw [validateBatchInput]
      simp only [Bool.false_eq_true, if_false, hne,
        validateItemsFromT_found xs 0 i item f hget hnn hbad hgood, Nat.zero_add]
    refine ⟨hval, ?_, ?_, ?_⟩ <;> simp only [handleEvaluate, hval]
  · intro xs i item oracle hget hnull hgood
    have hne : xs.isEmpty = false := by
      cases xs with
      | nil => simp at hget
      | cons a l => rfl
    have hval : validateBatchInput false (some (.arr xs)) =
        some "Failed to validate input structure" := by
      rw [validateBatchInput]
      simp only [Bool.false_eq_true, if_false, hne,
        validateItemsFromT_null xs 0 i item hget hnull hgood]
    refine ⟨hval, ?_, ?_⟩ <;> simp only [handleEvaluate, hval]
  · intro inputEmpty parsed err oracle hval
    simp [handleEvaluate, hval]

/-- The valid item of the spec's batch-fail-fast scenario. -/
def validBatchItem : JVal :=
  .obj [ ("query", .str "red running shoes")
       , ("item_title", .str "Nike Air Zoom Pegasus 39")
       , ("item_description", .str "Vibrant red running shoes with Zoom Air cushioning.")
       , ("item_category", .str "Footwear") ]

/-- The invalid item of the scenario: `item_category` is absent. -/
def invalidBatchItem : JVal :=
  .obj [ ("query", .str "blue summer dress")
       , ("item_title", .str "Floral Maxi Dress")
       , ("item_description", .str "Elegant floor-length summer dress.") ]

/-- C3 counterexample: the batch `[valid item, null]` contains an element
missing every required string field (a JSON `null` value has no fields),
yet the program's error is the generic try/catch text — `item[field]`
throws a TypeError on `null` — which differs from `itemError i f` for
every index `i` and field `f`, so the error references neither the
failing index nor a field name.  The oracle still receives zero calls. -/
theorem batch_fail_fast_null_counterexample :
    validateBatchInput false (some (.arr [validBatchItem, JVal.null])) =
      some "Failed to validate input structure" ∧
    (handleEvaluate false (some (.arr [validBatchItem, JVal.null]))
        (fun xs => xs)).toast = some "Failed to validate input structure" ∧
    (handleEvaluate false (some (.arr [validBatchItem, JVal.null]))
        (fun xs => xs)).oracleCalls = 0 ∧
    (∀ (i : Nat) (f : String),
      "Failed to validate input structure" ≠ itemError i f) := by
  refine ⟨rfl, rfl, rfl, ?_⟩
  intro i f h
  have h1 : "Failed to validate input structure".data.head? = some 'F' := rfl
  have h2 : (itemError i f).data.head? = some 'I' := by
    rw [itemError]
    repeat rw [String.data_append]
    rfl
  rw [h] at h1
  rw [h2] at h1
  simp at h1

/-- Witness for the amended C3: the batch
`[valid item, item missing item_category]` is rejected with the error
naming item 2 (0-based index 1) and `item_category`, and the oracle is
never called. -/
theorem batch_fail_fast_amended_witness :
    ([validBatchItem, invalidBatchItem].get? 1 = some invalidBatchItem) ∧
    (invalidBatchItem.isNull = false) ∧
    (firstBadField invalidBatchItem = some "item_category") ∧
    (itemError 1 "item_category" = "Item 2: Missing or invalid field \"item_category\"") ∧
    (validateBatchInput false (some (.arr [validBatchItem, invalidBatchItem])) =
        some (itemError 1 "item_category") ∧
      (handleEvaluate false (some (.arr [validBatchItem, invalidBatchItem]))
          (fun xs => xs)).oracleCalls = 0 ∧
      (handleEvaluate false (some (.arr [validBatchItem, invalidBatchItem]))
          (fun xs => xs)).toast = some (itemError 1 "item_category") ∧
      (handleEvaluate false (some (.arr [validBatchItem, invalidBatchItem]))
          (fun xs => xs)).results = []) := by
  refine ⟨rfl, rfl, rfl, by decide, ?_⟩
  refine batch_fail_fast_amended.1 [validBatchItem, invalidBatchItem] 1 invalidBatchItem
    "item_category" (fun xs => xs) rfl rfl rfl ?_
  intro j hj it hit
  obtain rfl : j = 0 := by omega
  obtain rfl : validBatchItem = it := by
    have : some validBatchItem = some it := hit
    injection this
  exact ⟨rfl, rfl⟩

/-- `items.find(item => !item.claimed)` from `handleClaimNext`
(`LandingPage.tsx`): the earliest-inserted unclaimed item, if any. -/
def nextAvailable (items : List SearchItem) : Option SearchItem :=
  items.find? fun item => !item.claimed

/-- Outcome of `LandingPage.handleClaim`: continue an already-claimed item,
decline the switch away from the active item, or claim (yielding the
updated catalog). -/
inductive ClaimOutcome : Type where
  | continueItem (item : SearchItem) (items : List SearchItem)
  | declined (items : List SearchItem)
  | claimed (item : SearchItem) (items : List SearchItem)
  deriving Repr, DecidableEq

/-- `handleClaim` from `LandingPage.tsx`: an already-claimed item is simply
re-selected ("continue"); if a different-titled item is active, the
caller-injected confirmation decides; otherwise every catalog item whose
title equals the clicked item's title is marked claimed. -/
def handleClaim (current : Option SearchItem) (confirmSwitch : Bool)
    (items : List SearchItem) (item : SearchItem) (now : String) : ClaimOutcome :=
  if item.claimed then .continueItem item items
  else if (current.any fun c => c.item_title != item.item_title) && !confirmSwitch then
    .declined items
  else .claimed item (claimByTitle item.item_title now items)

/-- Outcome of `LandingPage.handleClaimNext`. -/
inductive ClaimNextOutcome : Type where
  | switchDeclined (items : List SearchItem)
  | poolExhausted (alertMsg : String) (items : List SearchItem)
  | result (r : ClaimOutcome)
  deriving Repr, DecidableEq

/-- `handleClaimNext` from `LandingPage.tsx`: confirm a switch away from
the active item, find the first available item, and report pool exhaustion
(via the alert) when there is none; otherwise delegate to `handleClaim`. -/
def handleClaimNext (current : Option SearchItem) (confirmNext confirmClaim : Bool)
    (items : List SearchItem) (now : String) : ClaimNextOutcome :=
  if current.isSome && !confirmNext then .switchDeclined items
  else
    match nextAvailable items with
    | none =>
        .poolExhausted "No available items to claim. All items have been claimed." items
    | some it => .result (handleClaim current confirmClaim items it now)

/-- C4: `nextAvailable` returns the earliest-inserted unclaimed item in
catalog order; for unclaimed items A, B, C in order it returns A, and after
claiming A (title-based) it returns B; when every item is claimed it
returns none and `handleClaimNext` reports `poolExhausted` as a normal
outcome (the function returns without retrying). -/
theorem nextAvailable_fifo :
    (∀ (pre : List SearchItem) (it : SearchItem) (post : List SearchItem),
      (∀ p ∈ pre, p.claimed = true) → it.claimed = false →
      nextAvailable (pre ++ it :: post) = some it) ∧
    (∀ (A B C : SearchItem) (now : String),
      A.claimed = false → B.claimed = false → C.claimed = false →
      A.item_title ≠ B.item_title →
      nextAvailable [A, B, C] = some A ∧
      nextAvailable (claimByTitle A.item_title now [A, B, C]) = some B) ∧
    (∀ (items : List SearchItem) (current : Option SearchItem)
        (confirmClaim : Bool) (now : String),
      (∀ i ∈ items, i.claimed = true) →
      nextAvailable items = none ∧
      handleClaimNext current true confirmClaim items now =
        .poolExhausted "No available items to claim. All items have been claimed." items) := by
  refine ⟨?_, ?_, ?_⟩
  · intro pre it post hpre hit
    induction pre with
    | nil =>
      rw [List.nil_append, nextAvailable]
      exact List.find?_cons_of_pos _ (by rw [hit]; rfl)
    | cons p rest ih =>
      have hp : p.claimed = true := hpre p (List.mem_cons_self p rest)
      rw [List.cons_append, nextAvailable, List.find?_cons_of_neg _ (by rw [hp]; simp)]
      exact ih fun q hq => hpre q (List.mem_cons_of_mem p hq)
  · intro A B C now hA hB hC hAB
    constructor
    · rw [nextAvailable]
      exact List.find?_cons_of_pos _ (by rw [hA]; rfl)
    · have hBA : (B.item_title = A.item_title) = False := by
        simp only [eq_iff_iff, iff_false]
        exact fun h => hAB h.symm
      rw [claimByTitle]
      simp only [List.map_cons, List.map_nil, if_pos rfl, hBA, if_false]
      rw [nextAvailable, List.find?_cons_of_neg _ (by simp),
        List.find?_cons_of_pos _ (by rw [hB]; rfl)]
  · intro items current confirmClaim now hall
    have hnone : nextAvailable items = none := by
      rw [nextAvailable]
      refine List.find?_eq_none.mpr fun x hx => ?_
      rw [hall x hx]
      simp
    refine ⟨hnone, ?_⟩
    rw [handleClaimNext]
    simp only [Bool.not_true, Bool.and_false, Bool.false_eq_true, if_false, hnone]

/-- Witness for C4 at concrete items: three unclaimed items A, B, C; A is
returned first, B after A is claimed, and a fully claimed pool reports
exhaustion. -/
theorem nextAvailable_fifo_witness :
    (let A : SearchItem :=
      { query := "qa", item_title := "A", item_description := "da"
      , item_category := "ca", item_attributes := [] }
     let B : SearchItem :=
      { query := "qb", item_title := "B", item_description := "db"
      , item_category := "cb", item_attributes := [] }
     let C : SearchItem :=
      { query := "qc", item_title := "C", item_description := "dc"
      , item_category := "cc", item_attributes := [] }
     A.claimed = false ∧ B.claimed = false ∧ C.claimed = false ∧
     A.item_title ≠ B.item_title ∧
     nextAvailable [A, B, C] = some A ∧
     nextAvailable (claimByTitle A.item_title "t0" [A, B, C]) = some B) ∧
    (let D : SearchItem :=
      { query := "qd", item_title := "D", item_description := "dd"
      , item_category := "cd", item_attributes := []
      , claimed := true, claimed_at := some "t1" }
     (∀ i ∈ [D], i.claimed = true) ∧
     nextAvailable [D] = none ∧
     handleClaimNext none true true [D] "t2" =
       .poolExhausted "No available items to claim. All items have been claimed." [D]) := by
  constructor
  · refine ⟨rfl, rfl, rfl, by decide, ?_⟩
    exact (nextAvailable_fifo.2.1 _ _ _ "t0" rfl rfl rfl (by decide))
  · refine ⟨by decide, ?_⟩
    exact nextAvailable_fifo.2.2 _ none true "t2" (by decide)

/-- `Number.prototype.toFixed(1)` (then read back with `parseFloat`) on a
nonnegative rational: rounding to one decimal place, half away from zero
(the dashboard's scores are nonnegative, so half-up). -/
def toFixed1 (q : ℚ) : ℚ := (Int.floor (q * 10 + 1 / 2) : ℚ) / 10

/-- `previousStats` from the dashboard script: the snapshot the next
recomputation diffs against. -/
structure PrevStats : Type where
  total : Nat
  average : ℚ
  excellent : Nat
  good : Nat
  poor : Nat
  deriving Repr, DecidableEq, Inhabited

/-- The initial `previousStats` literal (all zero). -/
def initialPrevStats : PrevStats :=
  { total := 0, average := 0, excellent := 0, good := 0, poor := 0 }

/-- `scores.filter(s => s === v).length` from `updateStatistics`. -/
def countScore (scores : List ℚ) (v : ℚ) : Nat :=
  (scores.filter fun s => decide (s = v)).length

/-- Everything `updateStatistics` derives from the current history and the
previous snapshot: the counters, the nine per-score counts, the three band
fractions (and the percentages fed to the progress bars), and the two
trend values. -/
structure Statistics : Type where
  total : Nat
  average : ℚ
  pdnl : Nat
  utd : Nat
  embarrassing : Nat
  nonsensical : Nat
  badCount : Nat
  informational : Nat
  okay : Nat
  goodCount : Nat
  excellent : Nat
  topFrac : ℚ
  midFrac : ℚ
  bottomFrac : ℚ
  topProgress : ℚ
  midProgress : ℚ
  bottomProgress : ℚ
  totalTrend : ℤ
  averageTrend : ℚ
  deriving Repr, DecidableEq, Inhabited

/-- `updateStatistics` from the dashboard script: derives all statistics
from the current full history, diffs the trends against `previousStats`,
and returns the new snapshot stored back into `previousStats`.
`average` is the one-decimal rounding of the mean (or `0` on an empty
history); the progress values are the band fractions of total times 100
(top band: scores 8 and 7; mid: 6 and 5; bottom: 4, 3, 2, 1, 0). -/
def updateStatistics (history : List HistoryItem) (prev : PrevStats) :
    Statistics × PrevStats :=
  let total := history.length
  let scores := history.map fun h => h.score
  let average : ℚ := if 0 < scores.length then toFixed1 (scores.sum / scores.length) else 0
  let pdnl := countScore scores 0
  let utd := countScore scores 1
  let embarrassing := countScore scores 2
  let nonsensical := countScore scores 3
  let badC := countScore scores 4
  let informational := countScore scores 5
  let okay := countScore scores 6
  let goodC := countScore scores 7
  let excellent := countScore scores 8
  let topFrac : ℚ := ((excellent : ℚ) + goodC) / (scores.length : ℚ)
  let midFrac : ℚ := ((okay : ℚ) + informational) / (scores.length : ℚ)
  let bottomFrac : ℚ :=
    ((badC : ℚ) + nonsensical + embarrassing + utd + pdnl) / (scores.length : ℚ)
  ( { total := total
    , average := average
    , pdnl := pdnl
    , utd := utd
    , embarrassing := embarrassing
    , nonsensical := nonsensical
    , badCount := badC
    , informational := informational
    , okay := okay
    , goodCount := goodC
    , excellent := excellent
    , topFrac := topFrac
    , midFrac := midFrac
    , bottomFrac := bottomFrac
    , topProgress := topFrac * 100
    , midProgress := midFrac * 100
    , bottomProgress := bottomFrac * 100
    , totalTrend := (total : ℤ) - (prev.total : ℤ)
    , averageTrend := average - prev.average }
  , { total := total
    , average := average
    , excellent := excellent
    , good := goodC
    , poor := badC + nonsensical + embarrassing } )

/-- C5: statistics are recomputed from the current full history — total,
one-decimal mean, all nine per-score counts, band fractions of total for
top scores 7 and 8, mid 5 and 6, bottom 0 to 4 (the progress values are
the fractions times 100), and trends that are first differences against
the previous snapshot; for insertion order of scores 8, 8, 8, 0
(newest-first history [0, 8, 8, 8]) this yields total 4, average 6.0, top
band 0.75 and bottom band 0.25. -/
theorem statistics_recompute :
    (∀ (history : List HistoryItem) (prev : PrevStats),
      (updateStatistics history prev).1.totalTrend =
        (history.length : ℤ) - (prev.total : ℤ) ∧
      (updateStatistics history prev).1.averageTrend =
        (updateStatistics history prev).1.average - prev.average ∧
      (updateStatistics history prev).1.topProgress =
        (updateStatistics history prev).1.topFrac * 100 ∧
      (updateStatistics history prev).2.total = history.length) ∧
    (∀ (h1 h2 h3 h4 : HistoryItem) (prev : PrevStats),
      h1.score = 0 → h2.score = 8 → h3.score = 8 → h4.score = 8 →
      (updateStatistics [h1, h2, h3, h4] prev).1.total = 4 ∧
      (updateStatistics [h1, h2, h3, h4] prev).1.average = 6 ∧
      (updateStatistics [h1, h2, h3, h4] prev).1.topFrac = 3 / 4 ∧
      (updateStatistics [h1, h2, h3, h4] prev).1.bottomFrac = 1 / 4 ∧
      (updateStatistics [h1, h2, h3, h4] prev).1.excellent = 3 ∧
      (updateStatistics [h1, h2, h3, h4] prev).1.pdnl = 1 ∧
      (updateStatistics [h1, h2, h3, h4] prev).1.totalTrend = 4 - (prev.total : ℤ) ∧
      (updateStatistics [h1, h2, h3, h4] prev).1.averageTrend = 6 - prev.average) := by
  constructor
  · intro history prev
    exact ⟨rfl, rfl, rfl, rfl⟩
  · intro h1 h2 h3 h4 prev hs1 hs2 hs3 hs4
    simp only [updateStatistics, List.map_cons, List.map_nil, hs1, hs2, hs3, hs4,
      countScore, toFixed1, List.filter, List.sum_cons, List.sum_nil, List.length_cons,
      List.length_nil]
    norm_num

/-- Witness for C5 at concrete history entries carrying scores 0, 8, 8, 8
(newest first), diffed against the initial snapshot. -/
theorem statistics_recompute_witness :
    (let entry : ℚ → HistoryItem := fun q =>
      { id := 0, timestamp := "t", query := "q", itemTitle := "i"
      , itemDescription := "d", itemCategory := "c", itemAttributes := []
      , score := q, confidence := 1, reasonCode := "r", aiReasoning := "a" }
     (entry 0).score = 0 ∧ (entry 8).score = 8 ∧
     (updateStatistics [entry 0, entry 8, entry 8, entry 8] initialPrevStats).1.total = 4 ∧
     (updateStatistics [entry 0, entry 8, entry 8, entry 8] initialPrevStats).1.average = 6 ∧
     (updateStatistics [entry 0, entry 8, entry 8, entry 8] initialPrevStats).1.topFrac = 3 / 4 ∧
     (updateStatistics [entry 0, entry 8, entry 8, entry 8] initialPrevStats).1.bottomFrac = 1 / 4) := by
  intro entry
  have h := statistics_recompute.2 (entry 0) (entry 8) (entry 8) (entry 8)
    initialPrevStats rfl rfl rfl rfl
  exact ⟨rfl, rfl, h.1, h.2.1, h.2.2.1, h.2.2.2.1⟩

/-- One persisted `localStorage` cell: either a value written by
`JSON.stringify` (which round-trips structurally through `JSON.parse`), or
a malformed string that `JSON.parse` rejects. -/
inductive StoredCell : Type where
  | good (v : JVal)
  | corrupt
  deriving Inhabited

/-- The browser's `localStorage`: an association of keys to cells (the
earliest binding wins, as `storeSet` removes the key before prepending). -/
def Store : Type := List (String × StoredCell)

/-- `localStorage.getItem(key)` combined with the parse attempt. -/
def storeLookup (st : Store) (key : String) : Option StoredCell :=
  (st.find? fun p => p.1 == key).map fun p => p.2

/-- `localStorage.removeItem(key)`. -/
def storeRemove (st : Store) (key : String) : Store :=
  st.filter fun p => !(p.1 == key)

/-- `localStorage.setItem(key, JSON.stringify v)`. -/
def storeSet (st : Store) (key : String) (v : JVal) : Store :=
  (key, .good v) :: storeRemove st key

/-- The JSON value `getSampleData()` serializes to (`sampleData.ts`):
the canonical three-item sample catalog. -/
def sampleDataJson : JVal :=
  .arr
    [ .obj
        [ ("query", .str "red running shoes")
        , ("item_title", .str "Nike Air Zoom Pegasus 39")
        , ("item_description", .str "Experience ultimate comfort and performance with these vibrant red running shoes. Featuring advanced Zoom Air technology for responsive cushioning and durable traction.")
        , ("item_category", .str "Footwear")
        , ("item_attributes", .obj [("color", .str "red"), ("size", .str "9"), ("brand", .str "Nike"), ("price", .str "$129.99")])
        , ("claimed", .bool false) ]
    , .obj
        [ ("query", .str "blue summer dress")
        , ("item_title", .str "Floral Maxi Dress")
        , ("item_description", .str "Elegant floor-length summer dress with soft cotton fabric and blue floral pattern.")
        , ("item_category", .str "Clothing")
        , ("item_attributes", .obj [("color", .str "blue"), ("material", .str "cotton"), ("length", .str "maxi"), ("occasion", .str "casual")])
        , ("claimed", .bool false) ]
    , .obj
        [ ("query", .str "smartwatch with GPS")
        , ("item_title", .str "Apple Watch Series 9")
        , ("item_description", .str "Advanced smartwatch with GPS, health tracking, and bright Retina display.")
        , ("item_category", .str "Wearables")
        , ("item_attributes", .obj [("color", .str "midnight"), ("size", .str "45mm"), ("brand", .str "Apple"), ("price", .str "$399.99")])
        , ("claimed", .bool false) ] ]

/-- `key === 'searchItems' ? getSampleData() : initialValue` from
`useLocalStorage` — the canonical default for the bucket. -/
def defaultFor (key : String) (initialValue : JVal) : JVal :=
  if key == "searchItems" then sampleDataJson else initialValue

/-- The lazy initializer of `useLocalStorage` (its read path): parse the
stored entry if present; seed and persist the canonical default when the
entry is missing; fall back to `initialValue` when the entry is malformed
(the `catch` branch — corruption is absorbed, never thrown). -/
def useLocalStorageInit (st : Store) (key : String) (initialValue : JVal) :
    JVal × Store :=
  match storeLookup st key with
  | some (.good v) => (v, st)
  | some .corrupt => (initialValue, st)
  | none =>
      let d := defaultFor key initialValue
      (d, storeSet st key d)

/-- `setValue` of `useLocalStorage`: adopt the new value as state and
persist its serialization. -/
def setValue (st : Store) (key : String) (v : JVal) : JVal × Store :=
  (v, storeSet st key v)

/-- `JSON.parse(JSON.stringify(defaultValue))` from `resetValue`: forces a
fresh deep copy.  On pure JSON values this is the structural identity —
object identity (the aliasing the source guards against) is not observable
in a value model. -/
def jsonDeepCopy (v : JVal) : JVal := v

/-- `resetValue` of `useLocalStorage`: recompute the canonical default,
deep-copy it, remove the old entry, persist the fresh copy and adopt it. -/
def resetValue (st : Store) (key : String) (initialValue : JVal) :
    JVal × Store :=
  let fresh := jsonDeepCopy (defaultFor key initialValue)
  (fresh, storeSet (storeRemove st key) key fresh)

lemma storeLookup_storeSet (st : Store) (key : String) (v : JVal) :
    storeLookup (storeSet st key v) key = some (.good v) := by
  simp [storeLookup, storeSet]

/-- C6: `set` followed by the hook's read path returns a structurally
equal value (the stored serialization parses back to the value that was
set); reading a missing entry returns the canonical default for the key —
the caller-supplied `initialValue` for every bucket other than the seeded
`searchItems` catalog — and reading a malformed entry returns
`initialValue`, in both cases without raising. -/
theorem storage_round_trip :
    (∀ (st : Store) (key : String) (v d : JVal),
      (useLocalStorageInit (setValue st key v).2 key d).1 = v) ∧
    (∀ (st : Store) (key : String) (d : JVal),
      storeLookup st key = none →
      (useLocalStorageInit st key d).1 = defaultFor key d ∧
      ((key == "searchItems") = false → (useLocalStorageInit st key d).1 = d)) ∧
    (∀ (st : Store) (key : String) (d : JVal),
      storeLookup st key = some .corrupt →
      (useLocalStorageInit st key d).1 = d) := by
  refine ⟨?_, ?_, ?_⟩
  · intro st key v d
    rw [useLocalStorageInit, setValue, storeLookup_storeSet]
  · intro st key d hmiss
    rw [useLocalStorageInit, hmiss]
    exact ⟨rfl, fun hk => by rw [defaultFor, hk]; rfl⟩
  · intro st key d hcorrupt
    rw [useLocalStorageInit, hcorrupt]

/-- Witness for C6: a concrete set/get round trip, a read of a missing
key, and a read of a corrupted cell. -/
theorem storage_round_trip_witness :
    ((useLocalStorageInit (setValue [] "evaluationHistory" (.num 1)).2
        "evaluationHistory" .null).1 = .num 1) ∧
    (storeLookup [] "batchHistory" = none ∧
      ("batchHistory" == "searchItems") = false ∧
      (useLocalStorageInit ([] : Store) "batchHistory" (.arr [])).1 = .arr []) ∧
    (storeLookup [("searchItems", StoredCell.corrupt)] "searchItems" =
        some .corrupt ∧
      (useLocalStorageInit [("searchItems", StoredCell.corrupt)] "searchItems"
        (.arr [])).1 = .arr []) := by
  refine ⟨storage_round_trip.1 [] "evaluationHistory" (.num 1) .null, ⟨rfl, rfl, ?_⟩, rfl, ?_⟩
  · exact (storage_round_trip.2.1 [] "batchHistory" (.arr []) rfl).2 rfl
  · exact storage_round_trip.2.2 [("searchItems", StoredCell.corrupt)] "searchItems"
      (.arr []) rfl

lemma storeRemove_storeSet (st : Store) (key : String) (v : JVal) :
    storeRemove (storeSet st key v) key = storeRemove st key := by
  simp [storeSet, storeRemove, List.filter_filter]

lemma storeRemove_storeRemove (st : Store) (key : String) :
    storeRemove (storeRemove st key) key = storeRemove st key := by
  simp [storeRemove, List.filter_filter]

/-- C7: `resetValue` is idempotent — resetting twice yields exactly the
state (returned value and store) of resetting once — and for the catalog
bucket it stores precisely the canonical sample set, a fresh structural
copy; mutating the live catalog afterwards (a `setValue` of any other
value) never alters the canonical template: a further reset still restores
the sample set. -/
theorem reset_idempotent :
    (∀ (st : Store) (key : String) (d : JVal),
      resetValue (resetValue st key d).2 key d = resetValue st key d) ∧
    (∀ (st : Store) (d : JVal),
      (resetValue st "searchItems" d).1 = sampleDataJson ∧
      storeLookup (resetValue st "searchItems" d).2 "searchItems" =
        some (.good sampleDataJson) ∧
      (∀ v' : JVal,
        (resetValue
          (setValue (resetValue st "searchItems" d).2 "searchItems" v').2
          "searchItems" d).1 = sampleDataJson)) := by
  constructor
  · intro st key d
    rw [resetValue, resetValue]
    rw [storeRemove_storeSet, storeRemove_storeRemove]
  · intro st d
    refine ⟨rfl, ?_, fun v' => rfl⟩
    exact storeLookup_storeSet _ _ _

/-- Value of a digit string (most significant first), as `parseFloat`
accumulates it. -/
def digitsToNat (ds : List Char) : Nat :=
  ds.foldl (fun acc c => acc * 10 + (c.toNat - 48)) 0

/-- `parseFloat` on a string, for the plain decimal shapes scores can
take: optional leading whitespace, optional sign, digits with an optional
fraction part, trailing garbage ignored (leading-prefix parse).  `none` is
NaN: no digits could be consumed. -/
def jsParseFloat (s : String) : Option ℚ :=
  let cs := s.toList.dropWhile Char.isWhitespace
  let signed : Bool × List Char :=
    match cs with
    | '-' :: rest => (true, rest)
    | '+' :: rest => (false, rest)
    | _ => (false, cs)
  let intDigits := signed.2.takeWhile Char.isDigit
  let afterInt := signed.2.dropWhile Char.isDigit
  let fracDigits :=
    match afterInt with
    | '.' :: rest => rest.takeWhile Char.isDigit
    | _ => []
  if intDigits.isEmpty && fracDigits.isEmpty then none
  else
    let mag : ℤ :=
      ((digitsToNat intDigits * 10 ^ fracDigits.length + digitsToNat fracDigits : ℕ) : ℤ)
    some (mkRat (if signed.1 then -mag else mag) (10 ^ fracDigits.length))

/-- `parseFloat(x)` for an oracle-returned score field: numbers parse to
themselves, strings through the decimal parser, and every other JSON shape
(null, booleans, objects) is NaN. -/
def parseFloatJV : JVal → Option ℚ
  | .num q => some q
  | .str s => jsParseFloat s
  | _ => none

/-- The `|| 0` guard: NaN (and 0 itself) collapse to 0. -/
def orZero : Option ℚ → ℚ
  | some q => q
  | none => 0

/-- `parseFloat(item.score) || 0` — the orchestrator's score coercion. -/
def coerceScore (v : JVal) : ℚ := orZero (parseFloatJV v)

/-- One element of the oracle's `result.results` as the batch recorder
reads it: a score of arbitrary JSON shape plus a reason code. -/
structure OracleScore : Type where
  score : JVal
  reason_code : String

/-- `batchRecord` from the dashboard script (minus the `Date.now()` id and
timestamp): item count, completion status, the one-decimal average of the
coerced scores (`'0.0'` on an empty result list), and the compact per-item
`{score, reason}` log. -/
structure BatchRecord : Type where
  totalItems : Nat
  status : String
  averageScore : ℚ
  results : List (ℚ × String)

/-- Builds the `batchRecord` for a completed batch. -/
def mkBatchRecord (batchLen : Nat) (rs : List OracleScore) : BatchRecord :=
  { totalItems := batchLen
  , status := "completed"
  , averageScore :=
      if 0 < rs.length then
        toFixed1 ((rs.map fun r => coerceScore r.score).sum / (rs.length : ℚ))
      else 0
  , results := rs.map fun r => (coerceScore r.score, r.reason_code) }

/-- C8: the batch recorder coerces every oracle-returned score with
`parseFloat(score) || 0` — numbers stay themselves, parsable strings
become their value, and unparsable values become 0 — and uses exactly this
coercion both in the per-item log and in the batch average. -/
theorem batch_score_coercion :
    (∀ q : ℚ, coerceScore (.num q) = q) ∧
    (∀ (s : String) (q : ℚ), jsParseFloat s = some q → coerceScore (.str s) = q) ∧
    (∀ v : JVal, parseFloatJV v = none → coerceScore v = 0) ∧
    (∀ (n : Nat) (rs : List OracleScore),
      (mkBatchRecord n rs).results =
        rs.map (fun r => (coerceScore r.score, r.reason_code)) ∧
      (0 < rs.length →
        (mkBatchRecord n rs).averageScore =
          toFixed1 ((rs.map fun r => coerceScore r.score).sum / (rs.length : ℚ)))) := by
  refine ⟨fun q => rfl, ?_, ?_, ?_⟩
  · intro s q h
    rw [coerceScore, parseFloatJV, h]
    rfl
  · intro v h
    rw [coerceScore, h]
    rfl
  · intro n rs
    refine ⟨rfl, fun hlen => ?_⟩
    show (if 0 < rs.length then _ else _) = _
    rw [if_pos hlen]

/-- Witness for C8: the string score "7" is coerced to 7, the unparsable
"N/A" to 0, and a two-result batch averages the coerced scores. -/
theorem batch_score_coercion_witness :
    (jsParseFloat "7" = some 7 ∧ coerceScore (.str "7") = 7) ∧
    (parseFloatJV (.str "N/A") = none ∧ coerceScore (.str "N/A") = 0) ∧
    (0 < ([⟨.str "8", "excellent"⟩, ⟨.str "N/A", "poor"⟩] : List OracleScore).length ∧
      (mkBatchRecord 2 [⟨.str "8", "excellent"⟩, ⟨.str "N/A", "poor"⟩]).averageScore =
        toFixed1 ((([⟨.str "8", "excellent"⟩, ⟨.str "N/A", "poor"⟩] : List OracleScore).map
          fun r => coerceScore r.score).sum / 2)) := by
  refine ⟨⟨by decide, ?_⟩, ⟨by decide, ?_⟩, by decide, ?_⟩
  · exact batch_score_coercion.2.1 "7" 7 (by decide)
  · exact batch_score_coercion.2.2.1 (.str "N/A") (by decide)
  · exact ((batch_score_coercion.2.2.2 2
      [⟨.str "8", "excellent"⟩, ⟨.str "N/A", "poor"⟩]).2 (by decide))

/-- `String.prototype.trim()` as used by the form validation, modelled on
the character list (strip leading and trailing whitespace). -/
def jsTrim (s : String) : String :=
  String.mk
    (((s.toList.dropWhile Char.isWhitespace).reverse.dropWhile
      Char.isWhitespace).reverse)

/-- A resolved `fetch`: HTTP status flag plus the parsed JSON body. -/
structure HttpResponse : Type where
  ok : Bool
  body : JVal

/-- A `fetch` attempt: the promise either rejects (network failure) or
resolves to a response. -/
inductive FetchOutcome : Type where
  | networkError (msg : String)
  | response (resp : HttpResponse)

/-- `error.detail || 'Evaluation failed'` from `api.ts` (JS truthiness:
a missing, non-string or empty `detail` falls back to the default). -/
def errorDetail (body : JVal) : String :=
  match body.getField "detail" with
  | some (.str s) => if s == "" then "Evaluation failed" else s
  | _ => "Evaluation failed"

/-- `evaluateSingle` from `api.ts`: one POST to `/evaluate`; a rejected
fetch propagates, a non-ok response throws
`Error(error.detail || 'Evaluation failed')`, an ok response resolves to
the parsed result.  There is exactly one fetch — no retry exists in the
code. -/
def evaluateSingle (f : FetchOutcome) : Except String JVal :=
  match f with
  | .networkError msg => .error msg
  | .response resp =>
      if resp.ok then .ok resp.body else .error (errorDetail resp.body)

/-- `EvaluationRequest` from `types/index.ts`. -/
structure EvaluationRequest : Type where
  query : String
  item_title : String
  item_description : String
  item_category : String
  item_attributes : List (String × String)
  deriving Repr, DecidableEq, Inhabited

/-- `EvaluationResult` from `types/index.ts`, as `handleSubmit` reads it
off the resolved oracle call. -/
structure EvalResult : Type where
  relevance_score : ℚ
  confidence : ℚ
  reason_code : String
  ai_reasoning : String
  deriving Repr, DecidableEq, Inhabited

/-- The required form fields, paired with their values
(`['query', 'item_title', 'item_description', 'item_category']`). -/
def reqRequiredFields (r : EvaluationRequest) : List (String × String) :=
  [ ("query", r.query), ("item_title", r.item_title)
  , ("item_description", r.item_description), ("item_category", r.item_category) ]

/-- `requiredFields.filter(f => !requestData[f]?.toString().trim())` from
`handleSubmit`: the names of the fields that are empty after trimming. -/
def missingFields (r : EvaluationRequest) : List String :=
  ((reqRequiredFields r).filter fun p => jsTrim p.2 == "").map fun p => p.1

/-- The history entry `handleSubmit` appends after a successful
evaluation: a snapshot of the request plus the result fields, tagged
`claimed_item` when the form was prefilled from the catalog and
`manual_entry` otherwise. -/
def submitEntry (req : EvaluationRequest) (prefill : Option SearchItem)
    (res : EvalResult) (nowIso : String) : HistoryEntry :=
  { timestamp := nowIso
  , query := req.query
  , itemTitle := req.item_title
  , itemDescription := req.item_description
  , itemCategory := req.item_category
  , itemAttributes := req.item_attributes
  , score := res.relevance_score
  , confidence := res.confidence
  , reasonCode := res.reason_code
  , aiReasoning := res.ai_reasoning
  , source := some (match prefill with
      | some _ => HistorySource.claimed_item
      | none => HistorySource.manual_entry)
  , itemId := prefill.bind fun p => p.id }

/-- Observable outcome of one `handleSubmit` run. -/
structure SubmitOutcome : Type where
  history : List HistoryItem
  oracleCalls : Nat
  toastError : Option String
  result : Option EvalResult

/-- `handleSubmit` from `EvaluationPage.tsx`: validate the four required
fields (no oracle call on failure); otherwise call `evaluateSingle`
exactly once, and only when it resolves append the history entry — the
`catch` branch toasts the surfaced message and leaves history untouched. -/
def handleSubmit (req : EvaluationRequest) (prefill : Option SearchItem)
    (outcome : Except String EvalResult) (history : List HistoryItem)
    (now : ℚ) (nowIso : String) : SubmitOutcome :=
  if (missingFields req).isEmpty then
    match outcome with
    | .error msg =>
        { history := history
        , oracleCalls := 1
        , toastError := some ("❌ " ++ msg)
        , result := none }
    | .ok res =>
        { history := addToHistory (submitEntry req prefill res nowIso) now history
        , oracleCalls := 1
        , toastError := none
        , result := some res }
  else
    { history := history
    , oracleCalls := 0
    , toastError := some ("⚠️ Please fill in: " ++
        String.intercalate ", "
          ((missingFields req).map fun f => f.replace "_" " "))
    , result := none }

/-- C9: an oracle failure inside `evaluateSingle` — network failure or
non-ok response — is surfaced as an error to the caller from the single
fetch (no retry), and `handleSubmit`'s catch leaves the history exactly
unchanged; a history entry is appended only on the success path, after the
oracle call resolves. -/
theorem single_eval_error_no_history :
    (∀ msg : String, evaluateSingle (.networkError msg) = .error msg) ∧
    (∀ resp : HttpResponse, resp.ok = false →
      evaluateSingle (.response resp) = .error (errorDetail resp.body)) ∧
    (∀ resp : HttpResponse, resp.ok = true →
      evaluateSingle (.response resp) = .ok resp.body) ∧
    (∀ (req : EvaluationRequest) (prefill : Option SearchItem) (msg : String)
        (history : List HistoryItem) (now : ℚ) (nowIso : String),
      missingFields req = [] →
      (handleSubmit req prefill (.error msg) history now nowIso).history = history ∧
      (handleSubmit req prefill (.error msg) history now nowIso).oracleCalls = 1 ∧
      (handleSubmit req prefill (.error msg) history now nowIso).toastError =
        some ("❌ " ++ msg) ∧
      (handleSubmit req prefill (.error msg) history now nowIso).result = none) ∧
    (∀ (req : EvaluationRequest) (prefill : Option SearchItem) (res : EvalResult)
        (history : List HistoryItem) (now : ℚ) (nowIso : String),
      missingFields req = [] →
      (handleSubmit req prefill (.ok res) history now nowIso).history =
        addToHistory (submitEntry req prefill res nowIso) now history ∧
      (handleSubmit req prefill (.ok res) history now nowIso).oracleCalls = 1) := by
  refine ⟨fun msg => rfl, ?_, ?_, ?_, ?_⟩
  · intro resp h
    rw [evaluateSingle, h]
    rfl
  · intro resp h
    rw [evaluateSingle, h]
    rfl
  · intro req prefill msg history now nowIso hval
    rw [handleSubmit, hval]
    exact ⟨rfl, rfl, rfl, rfl⟩
  · intro req prefill res history now nowIso hval
    rw [handleSubmit, hval]
    exact ⟨rfl, rfl⟩

/-- Witness for C9 at a concrete request and failing oracle call: history
stays empty, exactly one call was made, the message is surfaced; and a
succeeding call appends exactly one entry. -/
theorem single_eval_error_no_history_witness :
    (let req : EvaluationRequest :=
      { query := "red running shoes", item_title := "Nike Air Zoom Pegasus 39"
      , item_description := "Vibrant red running shoes.", item_category := "Footwear"
      , item_attributes := [] }
     missingFields req = [] ∧
     evaluateSingle (.networkError "Failed to fetch") = .error "Failed to fetch" ∧
     (handleSubmit req none (.error "Failed to fetch") [] 0 "t").history = [] ∧
     (handleSubmit req none (.error "Failed to fetch") [] 0 "t").oracleCalls = 1 ∧
     (handleSubmit req none (.error "Failed to fetch") [] 0 "t").toastError =
       some ("❌ " ++ "Failed to fetch") ∧
     (handleSubmit req none
        (.ok { relevance_score := 8, confidence := 1
             , reason_code := "excellent", ai_reasoning := "match" }) [] 0 "t").history =
       addToHistory
         (submitEntry req none
           { relevance_score := 8, confidence := 1
           , reason_code := "excellent", ai_reasoning := "match" } "t") 0 []) := by
  intro req
  have hval : missingFields req = [] := by decide
  have herr := single_eval_error_no_history.2.2.2.1 req none "Failed to fetch" [] 0 "t" hval
  have hok := single_eval_error_no_history.2.2.2.2 req none
    { relevance_score := 8, confidence := 1
    , reason_code := "excellent", ai_reasoning := "match" } [] 0 "t" hval
  exact ⟨hval, single_eval_error_no_history.1 "Failed to fetch",
    herr.1, herr.2.1, herr.2.2.1, hok.1⟩

/-- C10: the claim written by `handleClaim` matches catalog items by
`item_title`, not by id — every item whose title equals the clicked item's
title is stamped claimed (items sharing a title are claimed together, all
others are untouched) — and the active-item conflict check also compares
titles, so a same-titled active item is treated as the same item and never
triggers the confirmation/decline path. -/
theorem claim_matches_by_title :
    (∀ (items : List SearchItem) (item : SearchItem) (now : String) (i : Nat)
        (it : SearchItem),
      items.get? i = some it →
      (claimByTitle item.item_title now items).get? i =
        some (if it.item_title = item.item_title then
          { it with claimed := true, claimed_at := some now } else it)) ∧
    (∀ (current item : SearchItem) (confirm : Bool) (items : List SearchItem)
        (now : String),
      item.claimed = false →
      current.item_title = item.item_title →
      handleClaim (some current) confirm items item now =
        .claimed item (claimByTitle item.item_title now items)) := by
  constructor
  · intro items item now i it hget
    rw [claimByTitle, List.get?_eq_getElem?, List.getElem?_map,
      ← List.get?_eq_getElem?, hget, Option.map_some']
  · intro current item confirm items now hclaimed htitle
    rw [handleClaim, hclaimed]
    have : (Option.some current).any (fun c => c.item_title != item.item_title) = false := by
      rw [Option.any_some]
      simp [htitle]
    rw [this]
    rfl

/-- Witness for C10: two catalog items sharing the title "Twin" are both
claimed by one `handleClaim` on the first of them, and a same-titled
active item does not trigger the decline path even with the confirmation
injected as `false`. -/
theorem claim_matches_by_title_witness :
    (let X : SearchItem :=
      { id := some 1, query := "qx", item_title := "Twin"
      , item_description := "dx", item_category := "cx", item_attributes := [] }
     let Y : SearchItem :=
      { id := some 2, query := "qy", item_title := "Twin"
      , item_description := "dy", item_category := "cy", item_attributes := [] }
     ([X, Y].get? 0 = some X ∧ [X, Y].get? 1 = some Y) ∧
     (claimByTitle X.item_title "t" [X, Y]).get? 0 =
       some { X with claimed := true, claimed_at := some "t" } ∧
     (claimByTitle X.item_title "t" [X, Y]).get? 1 =
       some { Y with claimed := true, claimed_at := some "t" } ∧
     X.claimed = false ∧ Y.item_title = X.item_title ∧
     handleClaim (some Y) false [X, Y] X "t" =
       .claimed X (claimByTitle X.item_title "t" [X, Y])) := by
  intro X Y
  refine ⟨⟨rfl, rfl⟩, ?_, ?_, rfl, rfl, ?_⟩
  · have h := claim_matches_by_title.1 [X, Y] X "t" 0 X rfl
    rw [if_pos rfl] at h
    exact h
  · have h := claim_matches_by_title.1 [X, Y] X "t" 1 Y rfl
    rw [if_pos rfl] at h
    exact h
  · exact claim_matches_by_title.2 Y X false [X, Y] "t" rfl rfl

end SQE
